import Mathlib

/-!
# Verification of the aqua_temp protocol-translation layer

Shallow embedding of the protocol-translation logic of the `aqua_temp`
climate integration:

* `custom_components/aqua_temp/common/hvac_mode_mapping.py` — the mode/code
  and per-mode register-key tables (present in the repository source).
* `custom_components/aqua_temp/climate.py` — the decode path
  (`AquaTempClimateEntity._handle_coordinator_update`) and the three
  command paths (`async_set_temperature`, `async_set_hvac_mode`,
  `async_set_fan_mode`).

Python values are embedded as follows: register snapshots are association
lists from string protocol codes to raw string values; Python `None` is
`Option.none`; Python floats are modelled as exact rationals `ℚ` (the
decoded values are small decimal literals, and Python's `float(str(x))`
round-trips a float exactly via `repr`); a raised exception is an explicit
error value threaded through the state-passing translation, and attribute
assignments made before the raise persist, exactly as Python attribute
mutation does.

Constants imported by `climate.py` from `common/consts.py`,
`common/protocol_codes.py` and the coordinator are not part of the
repository snapshot; those are modelled from the spec and are marked
`Modelled from the spec:` in their doc comments.
-/

namespace AquaTemp

/-- HVAC modes, the closed enumeration used by the integration
(`HVACMode.OFF/COOL/HEAT/AUTO` in `climate.py` and
`hvac_mode_mapping.py`). -/
inductive HVACMode where
  | off
  | cool
  | heat
  | auto
deriving DecidableEq, Repr

/-- Modelled from the spec: the fan-mode enumeration ("enumeration of
supported fan speeds plus an AUTO default; mapped to/from a vendor
manual-mute code"); the concrete members come from `FAN_MODE_MAPPING` in
`common/consts.py`, which is not part of the repository snapshot. -/
inductive FanMode where
  | fan_auto
  | fan_low
deriving DecidableEq, Repr

/-- A register snapshot: mapping from protocol-code (string key) to raw
string value, as held in `self._api_data` in `climate.py`. -/
abbrev Snapshot := List (String × String)

/-- First-match association-list lookup, embedding Python `dict.get` on the
snapshot (returns `none` for an absent key, as `dict.get` returns `None`). -/
def regLookup : Snapshot → String → Option String
  | [], _ => none
  | (k, v) :: rest, key => if k = key then some v else regLookup rest key

/-- Modelled from the spec: `PROTOCOL_CODE_POWER` from `common/consts.py`
(not in the repository snapshot); the key name follows the spec's example
scenario `{power:"1", mode:"1", ...}`. -/
def PROTOCOL_CODE_POWER : String := "power"

/-- Modelled from the spec: `PROTOCOL_CODE_HVAC_MODE` from
`common/consts.py` (not in the repository snapshot); key name from the
spec's example scenario. -/
def PROTOCOL_CODE_HVAC_MODE : String := "mode"

/-- Modelled from the spec: `PROTOCOL_CODE_FAN_MODE` from
`common/consts.py` (not in the repository snapshot); key name from the
spec's example scenario (`fanmute`). -/
def PROTOCOL_CODE_FAN_MODE : String := "fanmute"

/-- Modelled from the spec: `PROTOCOL_CODE_CURRENT_TEMP` from
`common/consts.py` (not in the repository snapshot); key name from the
spec's example scenario (`currenttemp`). -/
def PROTOCOL_CODE_CURRENT_TEMP : String := "currenttemp"

/-- Modelled from the spec: the power-on sentinel
`BINARY_SENSOR_CONFIG.get(PROTOCOL_CODE_POWER).get("value")` from
`common/consts.py` (not in the repository snapshot); the spec's example
scenario fixes it to the string `"1"` ("power-on-sentinel \"1\""). -/
def powerOnValue : String := "1"

-- `MODE_TEMPERATURE_COOL/HEAT/AUTO` from `hvac_mode_mapping.py`.
def MODE_TEMPERATURE_COOL : String := "0"
def MODE_TEMPERATURE_HEAT : String := "1"
def MODE_TEMPERATURE_AUTO : String := "2"

/-- `HVAC_MODE_MAPPING` from `hvac_mode_mapping.py`: hvac mode → wire mode
code; `OFF` maps to Python `None`. -/
def HVAC_MODE_MAPPING : HVACMode → Option String
  | .off => none
  | .cool => some MODE_TEMPERATURE_COOL
  | .heat => some MODE_TEMPERATURE_HEAT
  | .auto => some MODE_TEMPERATURE_AUTO

/-- Modelled from the spec: `HVAC_PC_MAPPING` from `common/consts.py`
(not in the repository snapshot) — raw wire mode code → hvac mode; the
spec's fixed vocabulary table "COOL↔\"0\", HEAT↔\"1\", AUTO↔\"2\"" with
any other code unmapped (Python `dict.get` returns `None`). -/
def HVAC_PC_MAPPING (code : String) : Option HVACMode :=
  if code = MODE_TEMPERATURE_COOL then some .cool
  else if code = MODE_TEMPERATURE_HEAT then some .heat
  else if code = MODE_TEMPERATURE_AUTO then some .auto
  else none

/-- Modelled from the spec: `MANUAL_MUTE_MAPPING` from `common/consts.py`
(not in the repository snapshot) — vendor manual-mute code → fan mode, a
closed implementation-defined table; unknown codes are unmapped. -/
def MANUAL_MUTE_MAPPING (code : String) : Option FanMode :=
  if code = "0" then some .fan_auto
  else if code = "1" then some .fan_low
  else none

/-- Modelled from the spec: `ProtocolCode.MINIMUM_TEMPERATURE_COOL` from
`common/protocol_codes.py` (not in the repository snapshot); a named
register key, per the spec's bound-indirection scheme and the example
scenario's `mintemp1`/`maxtemp1` naming. -/
def MINIMUM_TEMPERATURE_COOL : String := "mintemp0"

/-- Modelled from the spec: `ProtocolCode.MINIMUM_TEMPERATURE_HEAT` from
`common/protocol_codes.py` (not in the repository snapshot). -/
def MINIMUM_TEMPERATURE_HEAT : String := "mintemp1"

/-- Modelled from the spec: `ProtocolCode.MAXIMUM_TEMPERATURE_COOL` from
`common/protocol_codes.py` (not in the repository snapshot). -/
def MAXIMUM_TEMPERATURE_COOL : String := "maxtemp0"

/-- Modelled from the spec: `ProtocolCode.MAXIMUM_TEMPERATURE_HEAT` from
`common/protocol_codes.py` (not in the repository snapshot). -/
def MAXIMUM_TEMPERATURE_HEAT : String := "maxtemp1"

/-- Modelled from the spec: `ProtocolCode.TARGET_TEMPERATURE_COOL` from
`common/protocol_codes.py` (not in the repository snapshot); the spec
fixes the per-mode target-temperature register key scheme to
`"R0" + code`. -/
def TARGET_TEMPERATURE_COOL : String := "R00"

/-- Modelled from the spec: `ProtocolCode.TARGET_TEMPERATURE_HEAT` from
`common/protocol_codes.py` (not in the repository snapshot). -/
def TARGET_TEMPERATURE_HEAT : String := "R01"

/-- Modelled from the spec: `ProtocolCode.TARGET_TEMPERATURE_AUTO` from
`common/protocol_codes.py` (not in the repository snapshot). -/
def TARGET_TEMPERATURE_AUTO : String := "R02"

/-- `HVAC_MODE_TARGET_TEMPERATURE` from `hvac_mode_mapping.py`: hvac mode →
per-mode target-temperature register key; no entry for `OFF`. -/
def HVAC_MODE_TARGET_TEMPERATURE : HVACMode → Option String
  | .cool => some TARGET_TEMPERATURE_COOL
  | .heat => some TARGET_TEMPERATURE_HEAT
  | .auto => some TARGET_TEMPERATURE_AUTO
  | .off => none

/-- `HVAC_MODE_MINIMUM_TEMPERATURE` from `hvac_mode_mapping.py` (imported
as `HVAC_MODE_MIN_TEMP` in `climate.py`): defined for `COOL` and `HEAT`
only. -/
def HVAC_MODE_MIN_TEMP : HVACMode → Option String
  | .cool => some MINIMUM_TEMPERATURE_COOL
  | .heat => some MINIMUM_TEMPERATURE_HEAT
  | _ => none

/-- `HVAC_MODE_MAXIMUM_TEMPERATURE` from `hvac_mode_mapping.py` (imported
as `HVAC_MODE_MAX_TEMP` in `climate.py`): defined for `COOL` and `HEAT`
only. -/
def HVAC_MODE_MAX_TEMP : HVACMode → Option String
  | .cool => some MAXIMUM_TEMPERATURE_COOL
  | .heat => some MAXIMUM_TEMPERATURE_HEAT
  | _ => none

/-! ## Parsing: Python `float()` on register strings

Python's `float(s)` on a plain decimal string literal (optional sign,
digits, optional fraction part) yields the nearest double; the register
values here are short decimals, modelled exactly in `ℚ`. Any string that
is not a numeric literal (in particular the string `"None"` produced by
`str(None)`) raises `ValueError`, modelled as `none`. -/

/-- Value of a decimal digit character, `none` on a non-digit. -/
def digVal (c : Char) : Option Nat :=
  if c.isDigit then some (c.toNat - '0'.toNat) else none

/-- Parse a nonempty string of decimal digits to a `Nat`; `none` when the
string is empty or contains a non-digit. -/
def parseNatDigits (cs : List Char) : Option Nat :=
  if cs.isEmpty then none
  else cs.foldlM (fun acc c => (digVal c).map fun d => acc * 10 + d) 0

/-- Split a character list at the first decimal point: the characters
before it, and `some` of the characters after it when a point occurs. -/
def splitAtDot : List Char → List Char × Option (List Char)
  | [] => ([], none)
  | c :: t =>
    if c = '.' then ([], some t)
    else
      let (a, b) := splitAtDot t
      (c :: a, b)

/-- Embedding of Python `float()` applied to a register string: optional
sign, then a decimal literal `digits`, `digits.digits`, `digits.` or
`.digits`; everything else raises `ValueError`, i.e. `none`. A second
decimal point lands among the fraction digits and is rejected there. -/
def parseFloat (s : String) : Option ℚ :=
  let (sgn, body) :=
    match s.toList with
    | '-' :: t => ((-1 : Int), t)
    | '+' :: t => ((1 : Int), t)
    | t => ((1 : Int), t)
  match splitAtDot body with
  | (intPart, none) =>
    (parseNatDigits intPart).map fun n => Rat.divInt (sgn * (n : Int)) 1
  | (intPart, some fracPart) =>
    if intPart.isEmpty ∧ fracPart.isEmpty then none
    else
      let ip := if intPart.isEmpty then some 0 else parseNatDigits intPart
      let fp := if fracPart.isEmpty then some 0 else parseNatDigits fracPart
      match ip, fp with
      | some n, some f =>
        let k := fracPart.length
        some (Rat.divInt (sgn * ((n * 10 ^ k + f : Nat) : Int)) (((10 ^ k : Nat) : Int)))
      | _, _ => none

/-- Decode-side errors. `parseError` embeds the `ValueError` raised by
Python's `float()` on a non-numeric string (including `float(str(None))`).
-/
inductive DecodeErr where
  | parseError
deriving DecidableEq, Repr

/-- The mutable `_attr_*` fields of `AquaTempClimateEntity` read by the
display layer. `none` in an `Option` field embeds Python `None` (or a
never-assigned attribute). -/
structure EntityAttrs where
  hvac_mode : Option HVACMode
  fan_mode : Option FanMode
  target_temperature : Option ℚ
  min_temp : Option ℚ
  max_temp : Option ℚ
  current_temperature : Option ℚ
deriving DecidableEq, Repr

/-- The entity's initial attribute state (`__init__` sets
`_attr_hvac_mode = HVACMode.OFF`, `_attr_fan_mode = FAN_AUTO`; the
temperature attributes are unset). -/
def initialAttrs : EntityAttrs :=
  { hvac_mode := some .off
    fan_mode := some .fan_auto
    target_temperature := none
    min_temp := none
    max_temp := none
    current_temperature := none }

/-! ## decodeState: `AquaTempClimateEntity._handle_coordinator_update`

Each intermediate local of the Python method is a named function of the
snapshot alone, then `decodeState` threads the entity attributes through
the assignment sequence, stopping (and keeping already-made assignments)
at the first raised `ValueError`, exactly as the Python method does. -/

/-- `mode = self._api_data.get(PROTOCOL_CODE_HVAC_MODE)`. -/
def modeReg (s : Snapshot) : Option String := regLookup s PROTOCOL_CODE_HVAC_MODE

/-- `power = self._api_data.get(PROTOCOL_CODE_POWER)`. -/
def powerReg (s : Snapshot) : Option String := regLookup s PROTOCOL_CODE_POWER

/-- `manual_mute = self._api_data.get(PROTOCOL_CODE_FAN_MODE)`. -/
def manualMuteReg (s : Snapshot) : Option String := regLookup s PROTOCOL_CODE_FAN_MODE

/-- `current_temperature = self._api_data.get(PROTOCOL_CODE_CURRENT_TEMP)`. -/
def currentTempReg (s : Snapshot) : Option String := regLookup s PROTOCOL_CODE_CURRENT_TEMP

/-- `is_power_on = power == power_on_value`: exact equality of the raw
register value with the sentinel. An absent register (`None`) compares
unequal. -/
def isPowerOn (s : Snapshot) : Bool := powerReg s = some powerOnValue

/-- `hvac_mode = HVAC_PC_MAPPING.get(mode) if is_power_on else HVACMode.OFF`;
`dict.get` on an absent or unrecognized code yields Python `None`. -/
def resolvedHvacMode (s : Snapshot) : Option HVACMode :=
  if isPowerOn s then (modeReg s).bind HVAC_PC_MAPPING else some .off

/-- `min_temp_key = HVAC_MODE_MIN_TEMP.get(hvac_mode)`; a `None` hvac mode
is not a key of the table, so it also yields `None`. -/
def minTempKey (s : Snapshot) : Option String :=
  (resolvedHvacMode s).bind HVAC_MODE_MIN_TEMP

/-- `max_temp_key = HVAC_MODE_MAX_TEMP.get(hvac_mode)`. -/
def maxTempKey (s : Snapshot) : Option String :=
  (resolvedHvacMode s).bind HVAC_MODE_MAX_TEMP

/-- `min_temp = self._api_data.get(min_temp_key, 0)`: the raw register
string when the key exists and is present; `none` stands for the integer
default `0` (a `None` key is never present in the string-keyed snapshot).
-/
def minTempReg (s : Snapshot) : Option String :=
  (minTempKey s).bind (regLookup s)

/-- `max_temp = self._api_data.get(max_temp_key, 0)`. -/
def maxTempReg (s : Snapshot) : Option String :=
  (maxTempKey s).bind (regLookup s)

/-- `hvac_mode_code = HVAC_MODE_MAPPING.get(hvac_mode)`: `None` for `OFF`
(stored value) and for a `None` hvac mode (missing key). -/
def hvacModeCode (s : Snapshot) : Option String :=
  (resolvedHvacMode s).bind HVAC_MODE_MAPPING

/-- `hvac_mode_param = f"R0{hvac_mode_code}"`: the f-string renders a
`None` code as the literal text `None`. -/
def hvacModeParam (s : Snapshot) : String :=
  match hvacModeCode s with
  | none => "R0None"
  | some c => "R0" ++ c

/-- `hvac_mode_temperature_value = self._api_data.get(hvac_mode_param)`. -/
def targetRegValue (s : Snapshot) : Option String :=
  regLookup s (hvacModeParam s)

/-- The target-temperature local:
`target_temperature = None; if is_power_on and hvac_mode_temperature_value
is not None: target_temperature = float(hvac_mode_temperature_value)`.
The `float()` call may raise. -/
def targetStep (s : Snapshot) : Except DecodeErr (Option ℚ) :=
  if isPowerOn s then
    match targetRegValue s with
    | none => .ok none
    | some v =>
      match parseFloat v with
      | some q => .ok (some q)
      | none => .error .parseError
  else .ok none

/-- `float(str(x))` for a bound value `x` that is either the raw register
string or the integer default `0`: `str` of a string is itself, and
`float(str(0)) = 0.0`. -/
def boundStep : Option String → Except DecodeErr ℚ
  | none => .ok 0
  | some v =>
    match parseFloat v with
    | some q => .ok q
    | none => .error .parseError

/-- `float(str(current_temperature))` guarded by
`if current_temperature is not None`: `ok none` when the register is
absent (no assignment), the parsed value when present, `ValueError` when
present but non-numeric. -/
def currentStep (s : Snapshot) : Except DecodeErr (Option ℚ) :=
  match currentTempReg s with
  | none => .ok none
  | some v =>
    match parseFloat v with
    | some q => .ok (some q)
    | none => .error .parseError

/-- Embedding of `AquaTempClimateEntity._handle_coordinator_update`: given
the snapshot and the entity's prior attributes, returns the attributes
after the method runs together with the raised exception, if any.
Attribute assignments made before a raise persist (Python mutates `self`
field by field); `float(str(target_temperature))` on a `None` target is
`float("None")`, a `ValueError`. -/
def decodeState (s : Snapshot) (prior : EntityAttrs) :
    EntityAttrs × Option DecodeErr :=
  match targetStep s with
  | .error e => (prior, some e)
  | .ok target =>
    let a1 := { prior with
                hvac_mode := resolvedHvacMode s
                fan_mode := (manualMuteReg s).bind MANUAL_MUTE_MAPPING }
    match target with
    | none => (a1, some .parseError)
    | some q =>
      let a2 := { a1 with target_temperature := some q }
      match boundStep (minTempReg s) with
      | .error e => (a2, some e)
      | .ok mn =>
        let a3 := { a2 with min_temp := some mn }
        match boundStep (maxTempReg s) with
        | .error e => (a3, some e)
        | .ok mx =>
          let a4 := { a3 with max_temp := some mx }
          match currentStep s with
          | .error e => (a4, some e)
          | .ok none => (a4, none)
          | .ok (some c) => ({ a4 with current_temperature := some c }, none)

/-! ## Encode side and command paths -/

/-- Encode-side errors: a requested mode outside the encode tables
(`InvalidModeError` in the spec; a `KeyError`/missing-entry failure in the
implementation). -/
inductive EncodeErr where
  | invalidModeError
deriving DecidableEq, Repr

/-- Modelled from the spec: `encodeSetTemperature` — the temperature-write
translation performed by the coordinator's `set_temperature`
(`managers/aqua_temp_coordinator.py`, not in the repository snapshot):
"resolves the mode-specific target register key (same `\"R0\"+code`
scheme) and returns a single register write (key, value); fails with
InvalidModeError if hvac_mode has no associated temperature register".
The register-key table `HVAC_MODE_TARGET_TEMPERATURE` is taken from the
repository source `hvac_mode_mapping.py`. -/
def encodeSetTemperature (mode : HVACMode) (temperature : ℚ) :
    Except EncodeErr (String × ℚ) :=
  match HVAC_MODE_TARGET_TEMPERATURE mode with
  | some key => .ok (key, temperature)
  | none => .error .invalidModeError

/-- Errors raised by the awaited coordinator operations inside a command
path (translator or transport failures); `except Exception` catches all of
them. -/
inductive CmdErr where
  | translatorError
  | transportError
deriving DecidableEq, Repr

/-- The observable outcome of one command path: the entity attributes
afterwards, the exception propagated to the caller (if any), and whether a
warning was logged. -/
structure CommandOutcome where
  attrs : EntityAttrs
  propagated : Option CmdErr
  logged : Bool
deriving DecidableEq, Repr

/-- Embedding of `AquaTempClimateEntity.async_set_temperature`: the
try-block body (the awaited `coordinator.set_temperature` and
`async_request_refresh`, whose code is not in the repository snapshot) is
represented by its outcome `op`; `except Exception` logs a warning and
swallows the error, touching no `_attr_*` field. -/
def async_set_temperature (op : Except CmdErr Unit) (a : EntityAttrs) :
    CommandOutcome :=
  match op with
  | .ok _ => { attrs := a, propagated := none, logged := false }
  | .error _ => { attrs := a, propagated := none, logged := true }

/-- Embedding of `AquaTempClimateEntity.async_set_hvac_mode`: identical
catch-log-swallow structure around `coordinator.set_hvac_mode`. -/
def async_set_hvac_mode (op : Except CmdErr Unit) (a : EntityAttrs) :
    CommandOutcome :=
  match op with
  | .ok _ => { attrs := a, propagated := none, logged := false }
  | .error _ => { attrs := a, propagated := none, logged := true }

/-- Embedding of `AquaTempClimateEntity.async_set_fan_mode`: identical
catch-log-swallow structure around `coordinator.set_fan_mode`. -/
def async_set_fan_mode (op : Except CmdErr Unit) (a : EntityAttrs) :
    CommandOutcome :=
  match op with
  | .ok _ => { attrs := a, propagated := none, logged := false }
  | .error _ => { attrs := a, propagated := none, logged := true }

/-- The spec's first example scenario snapshot: `{power:"1", mode:"1",
R01:"22.0", fanmute:"0", mintemp1:"18", maxtemp1:"30",
currenttemp:"20.5"}`. -/
def exampleSnapshot : Snapshot :=
  [("power", "1"), ("mode", "1"), ("R01", "22.0"), ("fanmute", "0"),
   ("mintemp1", "18"), ("maxtemp1", "30"), ("currenttemp", "20.5")]

/-! ## Shared lemmas -/

/-- The spec's first example scenario decodes as the spec states: HEAT,
target 22.0, bounds 18/30, current 20.5, fan AUTO, no error. -/
theorem decode_exampleSnapshot :
    decodeState exampleSnapshot initialAttrs
      = (⟨some .heat, some .fan_auto, some 22, some 18, some 30,
          some (Rat.divInt 41 2)⟩, none) := by decide

/-- When the device is powered off, the target-temperature local stays
`None` without any `float()` call. -/
theorem targetStep_of_power_off {s : Snapshot} (h : isPowerOn s = false) :
    targetStep s = .ok none := by
  simp [targetStep, h]

/-- `currentStep` returns `ok none` exactly when the current-temperature
register is absent. -/
theorem currentStep_ok_none {s : Snapshot} (h : currentStep s = .ok none) :
    currentTempReg s = none := by
  unfold currentStep at h
  cases hc : currentTempReg s with
  | none => rfl
  | some v =>
    rw [hc] at h
    cases hp : parseFloat v <;> simp [hp] at h

/-! ## Claim theorems -/

/-- C1: for every snapshot whose power register value is not exactly the
configured power-on sentinel (including an absent register or any other
"truthy" value), `decodeState` leaves the entity's hvac mode at `OFF`,
regardless of the content or absence of the mode register; power-on is
exact string equality with the sentinel. -/
theorem C1_power_off_forces_hvac_off (s : Snapshot) (a : EntityAttrs)
    (h : regLookup s PROTOCOL_CODE_POWER ≠ some powerOnValue) :
    ((decodeState s a).1).hvac_mode = some HVACMode.off := by
  have hp : isPowerOn s = false := by
    simp only [isPowerOn, powerReg, decide_eq_false_iff_not]
    exact h
  have hm : resolvedHvacMode s = some HVACMode.off := by
    simp [resolvedHvacMode, hp]
  simp [decodeState, targetStep_of_power_off hp, hm]

/-- C1 witness: the snapshot `{power:"2", mode:"1"}` has a power value
different from the sentinel `"1"` (a "truthy" string) and a valid mode
register, yet decodes with hvac mode `OFF`. -/
theorem C1_power_off_forces_hvac_off_witness :
    ((decodeState [("power", "2"), ("mode", "1")] initialAttrs).1).hvac_mode
      = some HVACMode.off :=
  C1_power_off_forces_hvac_off [("power", "2"), ("mode", "1")] initialAttrs
    (by decide)

/-- C2 (refuted, code bug): the spec requires the powered-off example
snapshot `{power:"0", mode:"1", R01:"22.0"}` to decode without failure to
`{hvac_mode: OFF, target_temperature: null}`, but the implementation
executes `float(str(None))` = `float("None")`, raising `ValueError`
before the target/min/max attributes are assigned; only the hvac mode
(`OFF`) and fan mode have been written when the exception escapes. -/
theorem C2_power_off_decode_raises :
    decodeState [("power", "0"), ("mode", "1"), ("R01", "22.0")] initialAttrs
      = ({ initialAttrs with hvac_mode := some .off, fan_mode := none },
         some .parseError) := by decide

/-- C3 (refuted, code bug): with power on and the unrecognized mode code
`"9"`, the implementation silently stores Python `None` (outside the
closed hvac-mode enumeration) as the entity's hvac mode via
`HVAC_PC_MAPPING.get` without an existence check — no
`UnrecognizedCodeError` and no documented fallback; the `ValueError` that
does escape comes from the unrelated `float(str(None))` target-formatting
defect. -/
theorem C3_unrecognized_mode_silently_none :
    decodeState [("power", "1"), ("mode", "9")] initialAttrs
      = ({ initialAttrs with hvac_mode := none, fan_mode := none },
         some .parseError) := by decide

/-- C6 (refuted, code bug): a powered-off snapshot with no bound registers
decodes to hvac mode `OFF`, and the spec requires min = max = 0; but the
decode raises `ValueError` at the target-temperature formatting step,
which precedes the bound assignments, so the previous min/max values
(here 7 and 9) survive instead of being set to 0. -/
theorem C6_off_decode_keeps_prior_bounds :
    decodeState [("power", "0")]
        { initialAttrs with min_temp := some 7, max_temp := some 9 }
      = (⟨some .off, none, none, some 7, some 9, none⟩, some .parseError) := by
  decide

/-- C8: `encodeSetTemperature(HEAT, 21.5)` produces the single register
write `("R01", 21.5)` to the HEAT target-temperature register, and
`encodeSetTemperature(OFF, t)` fails with `InvalidModeError` for every
temperature `t`, since `HVAC_MODE_TARGET_TEMPERATURE` has no entry for
`OFF`. -/
theorem C8_encode_set_temperature :
    encodeSetTemperature HVACMode.heat (Rat.divInt 43 2)
        = .ok ("R01", Rat.divInt 43 2)
    ∧ ∀ t : ℚ, encodeSetTemperature HVACMode.off t
        = .error EncodeErr.invalidModeError :=
  ⟨rfl, fun _ => rfl⟩

/-- C9: each command path (`async_set_temperature`, `async_set_hvac_mode`,
`async_set_fan_mode`) catches every exception of the underlying awaited
operation, logs it, propagates nothing to its caller, and leaves every
displayed attribute unchanged, whether the operation succeeds or fails. -/
theorem C9_command_paths_swallow_errors :
    ∀ (op : Except CmdErr Unit) (a : EntityAttrs),
      (async_set_temperature op a).attrs = a
      ∧ (async_set_temperature op a).propagated = none
      ∧ (async_set_hvac_mode op a).attrs = a
      ∧ (async_set_hvac_mode op a).propagated = none
      ∧ (async_set_fan_mode op a).attrs = a
      ∧ (async_set_fan_mode op a).propagated = none
      ∧ (∀ e, op = .error e → (async_set_temperature op a).logged = true) := by
  intro op a
  cases op <;> simp [async_set_temperature, async_set_hvac_mode, async_set_fan_mode]

/-- Decode/encode round trip at the table level: each wire mode code of
the fixed vocabulary maps through `HVAC_PC_MAPPING` to an hvac mode whose
`HVAC_MODE_MAPPING` entry is the original code. -/
theorem hvac_code_table_roundtrip (c : String)
    (hc : c = MODE_TEMPERATURE_COOL ∨ c = MODE_TEMPERATURE_HEAT
          ∨ c = MODE_TEMPERATURE_AUTO) :
    (HVAC_PC_MAPPING c).bind HVAC_MODE_MAPPING = some c := by
  rcases hc with rfl | rfl | rfl <;> decide

/-- C5: for every mode code in the fixed vocabulary (`"0"`, `"1"`, `"2"`)
and every powered-on snapshot carrying that code, the hvac mode resolved
by the decode maps back through the mode-code table to exactly the
original code. -/
theorem C5_decode_encode_roundtrip (s : Snapshot) (c : String)
    (hpow : isPowerOn s = true)
    (hmode : modeReg s = some c)
    (hc : c = MODE_TEMPERATURE_COOL ∨ c = MODE_TEMPERATURE_HEAT
          ∨ c = MODE_TEMPERATURE_AUTO) :
    (resolvedHvacMode s).bind HVAC_MODE_MAPPING = some c := by
  have hres : resolvedHvacMode s = HVAC_PC_MAPPING c := by
    simp [resolvedHvacMode, hpow, hmode]
  rw [hres]
  exact hvac_code_table_roundtrip c hc

/-- C5 witness: the spec's example snapshot is powered on with mode code
`"1"`; the decoded hvac mode (HEAT) encodes back to `"1"`. -/
theorem C5_decode_encode_roundtrip_witness :
    (resolvedHvacMode exampleSnapshot).bind HVAC_MODE_MAPPING = some "1" :=
  C5_decode_encode_roundtrip exampleSnapshot "1" (by decide) (by decide)
    (by decide)

/-- C4: for every powered-on snapshot whose mode code `c` is in the fixed
vocabulary and which contains the register `"R0" + c` with a value that
parses as a number, the decode assigns exactly that parsed number to the
entity's target temperature. -/
theorem C4_target_is_parsed_mode_register (s : Snapshot) (a : EntityAttrs)
    (c v : String) (q : ℚ)
    (hpow : isPowerOn s = true)
    (hmode : modeReg s = some c)
    (hc : c = MODE_TEMPERATURE_COOL ∨ c = MODE_TEMPERATURE_HEAT
          ∨ c = MODE_TEMPERATURE_AUTO)
    (hreg : regLookup s ("R0" ++ c) = some v)
    (hparse : parseFloat v = some q) :
    ((decodeState s a).1).target_temperature = some q := by
  have hres : resolvedHvacMode s = HVAC_PC_MAPPING c := by
    simp [resolvedHvacMode, hpow, hmode]
  have hcode : hvacModeCode s = some c := by
    rw [hvacModeCode, hres]
    exact hvac_code_table_roundtrip c hc
  have hparam : hvacModeParam s = "R0" ++ c := by
    simp [hvacModeParam, hcode]
  have htv : targetRegValue s = some v := by
    rw [targetRegValue, hparam]
    exact hreg
  have ht : targetStep s = .ok (some q) := by
    simp [targetStep, hpow, htv, hparse]
  unfold decodeState
  rw [ht]
  cases hmn : boundStep (minTempReg s) with
  | error e => simp
  | ok mn =>
    cases hmx : boundStep (maxTempReg s) with
    | error e => simp
    | ok mx =>
      cases hcu : currentStep s with
      | error e => simp
      | ok oc => cases oc <;> simp

/-- C4 witness: in the spec's example snapshot the mode code is `"1"` and
register `"R01"` holds `"22.0"`, so the decoded target temperature is
22. -/
theorem C4_target_is_parsed_mode_register_witness :
    ((decodeState exampleSnapshot initialAttrs).1).target_temperature
      = some 22 :=
  C4_target_is_parsed_mode_register exampleSnapshot initialAttrs "1" "22.0" 22
    (by decide) (by decide) (by decide) (by decide) (by decide)

/-- C7: whenever a register that should be numeric is present but does not
parse — the per-mode target register of a powered-on snapshot, or the
current-temperature register — the decode fails, surfacing the
`ValueError` (the embedding's `ParseError`) to the caller instead of
swallowing it or substituting a default. -/
theorem C7_unparseable_register_raises (s : Snapshot) (a : EntityAttrs)
    (v : String)
    (hv : parseFloat v = none)
    (h : (isPowerOn s = true ∧ targetRegValue s = some v)
         ∨ currentTempReg s = some v) :
    (decodeState s a).2 = some DecodeErr.parseError := by
  rcases h with ⟨hpow, htv⟩ | hcur
  · have ht : targetStep s = .error .parseError := by
      simp [targetStep, hpow, htv, hv]
    unfold decodeState
    rw [ht]
  · have hcs : currentStep s = .error .parseError := by
      simp [currentStep, hcur, hv]
    unfold decodeState
    cases ht : targetStep s with
    | error e => cases e; rfl
    | ok target =>
      cases target with
      | none => rfl
      | some q =>
        cases hmn : boundStep (minTempReg s) with
        | error e => cases e; rfl
        | ok mn =>
          cases hmx : boundStep (maxTempReg s) with
          | error e => cases e; rfl
          | ok mx =>
            rw [hcs]

/-- C7 witness: powered on in HEAT with `R01 = "abc"`, a present but
non-numeric target register: the decode fails with the parse error. -/
theorem C7_unparseable_register_raises_witness :
    (decodeState [("power", "1"), ("mode", "1"), ("R01", "abc")]
        initialAttrs).2 = some DecodeErr.parseError :=
  C7_unparseable_register_raises
    [("power", "1"), ("mode", "1"), ("R01", "abc")] initialAttrs "abc"
    (by decide) (Or.inl ⟨by decide, by decide⟩)

/-- C10 (refuted): the claim that `decodeState` is a pure function of the
snapshot alone fails at a snapshot lacking the current-temperature
register: the implementation assigns `_attr_current_temperature` only
when that register is present, so two runs on the identical snapshot from
different prior entity states publish different current temperatures. -/
theorem C10_decode_depends_on_prior_state :
    decodeState [("power", "1"), ("mode", "1"), ("R01", "22.0")] initialAttrs
      ≠ decodeState [("power", "1"), ("mode", "1"), ("R01", "22.0")]
          { initialAttrs with current_temperature := some 99 } := by decide

/-- C10 (amended): on any snapshot that contains the current-temperature
register and decodes without error, `decodeState` is a function of the
snapshot alone: every attribute is overwritten, so runs from any two
prior entity states produce identical results. -/
theorem C10_pure_when_current_register_present (s : Snapshot)
    (a1 a2 : EntityAttrs)
    (hcur : currentTempReg s ≠ none)
    (hok : (decodeState s a1).2 = none) :
    decodeState s a1 = decodeState s a2 := by
  unfold decodeState at hok ⊢
  cases ht : targetStep s with
  | error e => rw [ht] at hok; simp at hok
  | ok target =>
    rw [ht] at hok
    cases target with
    | none => simp at hok
    | some q =>
      cases hmn : boundStep (minTempReg s) with
      | error e => rw [hmn] at hok; simp at hok
      | ok mn =>
        rw [hmn] at hok
        cases hmx : boundStep (maxTempReg s) with
        | error e => rw [hmx] at hok; simp at hok
        | ok mx =>
          rw [hmx] at hok
          cases hcu : currentStep s with
          | error e => rw [hcu] at hok; simp at hok
          | ok oc =>
            cases oc with
            | none => exact absurd (currentStep_ok_none hcu) hcur
            | some cv => rfl

/-- C10 amended witness: the spec's example snapshot carries the
current-temperature register and decodes cleanly, so decoding from the
initial attributes and from attributes with a stale current temperature
gives the same result. -/
theorem C10_pure_when_current_register_present_witness :
    decodeState exampleSnapshot initialAttrs
      = decodeState exampleSnapshot
          { initialAttrs with current_temperature := some 5 } :=
  C10_pure_when_current_register_present exampleSnapshot initialAttrs
    { initialAttrs with current_temperature := some 5 }
    (by decide) (by decide)

end AquaTemp
